import Mathlib

/-!
# PyAstroSALT — verification of the submission-tracking client

A shallow embedding of the parts of the PyAstroSALT repository that the
specification's claims are about:

* `src/pyastrosalt/proposal.py` — the asynchronous generator
  `submission_progress` (reconnection loop with bounded retries) and its
  helper `_submission_progress_server_input`;
* `src/pyastrosalt/web.py` — `check_for_http_errors`;
* `src/pyastrosalt/requests.py` — `Session.request` endpoint validation and
  `Session._handle_errors`;
* `src/pyastrosalt/submission.py` — `submit` / `_submit` /
  `_check_submitted_content`, and the `Submission` state machine (declared in
  the source as an empty class, behaviour modelled from the spec).

Stateful generator code is embedded as explicit state-passing functions over
an environment describing the server's behaviour; fallible code returns
`Except`.
-/

/-- Enumeration of submission status values (`SubmissionStatus` in
`proposal.py`). -/
inductive SubmissionStatus
  | FAILED
  | IN_PROGRESS
  | SUCCESSFUL
deriving DecidableEq, Repr

/-- `SubmissionStatus(value)`: converting a raw string to the enum; an
unrecognised string raises (modelled as `none`). -/
def SubmissionStatus.ofString : String → Option SubmissionStatus
  | "Failed" => some .FAILED
  | "In progress" => some .IN_PROGRESS
  | "Successful" => some .SUCCESSFUL
  | _ => none

/-- Enumeration of submission log message types (`SubmissionLogMessageType`
in `proposal.py`). -/
inductive SubmissionLogMessageType
  | ERROR
  | INFO
  | WARNING
deriving DecidableEq, Repr

/-- `SubmissionLogMessageType(value)`: converting a raw string to the enum. -/
def SubmissionLogMessageType.ofString : String → Option SubmissionLogMessageType
  | "Error" => some .ERROR
  | "Info" => some .INFO
  | "Warning" => some .WARNING
  | _ => none

/-- One raw log entry as received from the server (one element of the
`log_entries` array of a progress message).  The timestamp is kept as the
raw ISO-8601 string; `datetime.fromisoformat` is modelled as the identity on
it (timestamp parsing is not at issue in any claim). -/
structure RawLogEntry where
  entry_number : Nat
  logged_at : String
  message_type : String
  message : String
deriving DecidableEq, Repr

/-- One raw progress message as received from the server (the result of
`json.loads` on one websocket message). -/
structure RawBatch where
  status : String
  log_entries : List RawLogEntry
  proposal_code : Option String
deriving DecidableEq, Repr

/-- A log entry after the conversions performed by `submission_progress`
(`message_type` mapped to the enum; `logged_at` parsed, modelled as kept). -/
structure ParsedLogEntry where
  entry_number : Nat
  logged_at : String
  message_type : SubmissionLogMessageType
  message : String
deriving DecidableEq, Repr

/-- A progress message after the conversions performed by
`submission_progress`, i.e. one item yielded by the generator. -/
structure ParsedBatch where
  status : SubmissionStatus
  log_entries : List ParsedLogEntry
  proposal_code : Option String
deriving DecidableEq, Repr

/-- The per-entry conversion done in the body of `submission_progress`:
`log_entry["logged_at"] = datetime.fromisoformat(...)` and
`log_entry["message_type"] = SubmissionLogMessageType(...)`.  A failing
enum conversion raises, modelled as `none`. -/
def parseLogEntry (e : RawLogEntry) : Option ParsedLogEntry :=
  match SubmissionLogMessageType.ofString e.message_type with
  | some mt => some ⟨e.entry_number, e.logged_at, mt, e.message⟩
  | none => none

/-- The per-message conversion done in the body of `submission_progress`:
`p["status"] = SubmissionStatus(p["status"])` followed by the per-entry
conversions.  Any failing conversion raises inside the `try` block,
modelled as `none`. -/
def parseBatch (b : RawBatch) : Option ParsedBatch :=
  match SubmissionStatus.ofString b.status with
  | none => none
  | some st =>
    match b.log_entries.mapM parseLogEntry with
    | none => none
    | some entries => some ⟨st, entries, b.proposal_code⟩

/-- How one websocket connection made by `_submission_progress_server_input`
ends, from the point of view of the outer generator: either the server
closes the connection cleanly (`ConnectionClosedOK`, ending the inner
generator normally) or some exception is raised (connection failure, receive
failure, non-OK close). -/
inductive ConnEnd
  | closedOK
  | failed
deriving DecidableEq, Repr

/-- One connection attempt as seen by `submission_progress`: the sequence of
messages successfully received on that connection, followed by how the
connection ends. -/
structure ConnAttempt where
  messages : List RawBatch
  ending : ConnEnd
deriving DecidableEq, Repr

/-- Observable events of one run of the `submission_progress` generator:
the `from_entry_number` value passed to `_submission_progress_server_input`
at each (re)connection, each item yielded, and how the run ends (normal
completion after the server closes the connection, or re-raising the last
failure once the retry budget is exhausted). -/
inductive Event
  | request (fromEntry : Nat)
  | yielded (b : ParsedBatch)
  | completed
  | raised
deriving DecidableEq, Repr

/-- Processing of the messages of one connection by the body of the
`async for` loop in `submission_progress`: each message is parsed and
yielded in turn; the first message that fails to parse raises, cutting the
connection short.  Returns the yield events, the total number of log
entries in the yielded messages (the amount `received_log_entries` advances
by), and whether all messages were parsed (`false` means the attempt ended
in an exception before its natural ending was reached). -/
def processMessages : List RawBatch → List Event × Nat × Bool
  | [] => ([], 0, true)
  | m :: ms =>
    match parseBatch m with
    | none => ([], 0, false)
    | some b =>
      let rest := processMessages ms
      (Event.yielded b :: rest.1, b.log_entries.length + rest.2.1, rest.2.2)

/-- The run of the `submission_progress` generator (proposal.py lines
166-191) over a given sequence of connection attempts, as the list of its
observable events.

State threaded through the loop: `received` is `received_log_entries` and
`r` is `num_retries`.  Each iteration connects with
`from_entry_number = received + 1` (an `Event.request`), yields each
successfully parsed message (advancing `received` and resetting `num_retries`
to 0 after every yield), and then:

* if all messages parsed and the server closed the connection cleanly, the
  generator returns (`Event.completed`);
* otherwise an exception was raised; `num_retries` is incremented (from 0 if
  anything was yielded on this attempt) and if it now exceeds `max_retries`
  the exception is re-raised (`Event.raised`), else the loop retries.

If the environment list is exhausted while the loop still wants to connect,
the trace simply stops (a truncated run). -/
def submission_progress (max_retries : Nat) :
    List ConnAttempt → Nat → Nat → List Event
  | [], _, _ => []
  | a :: rest, received, r =>
    let pm := processMessages a.messages
    let r' := if pm.1.isEmpty then r else 0
    if pm.2.2 = true ∧ a.ending = ConnEnd.closedOK then
      Event.request (received + 1) :: pm.1 ++ [Event.completed]
    else if r' + 1 > max_retries then
      Event.request (received + 1) :: pm.1 ++ [Event.raised]
    else
      Event.request (received + 1) :: pm.1 ++
        submission_progress max_retries rest (received + pm.2.1) (r' + 1)

/-- Number of log entries contained in the batches yielded in a trace
(prefix); this is what `received_log_entries` counts. -/
def entriesIn : List Event → Nat
  | [] => 0
  | Event.yielded b :: tr => b.log_entries.length + entriesIn tr
  | _ :: tr => entriesIn tr

/-- A trace contains a yield event. -/
def hasYield : List Event → Bool
  | [] => false
  | Event.yielded _ :: _ => true
  | _ :: tr => hasYield tr

/-- A connection attempt that fails before delivering any message (e.g. the
websocket connection itself fails). -/
def failA : ConnAttempt := ⟨[], ConnEnd.failed⟩

/-- A connection attempt on which the server immediately closes the
connection cleanly, delivering no message. -/
def closeA : ConnAttempt := ⟨[], ConnEnd.closedOK⟩

/-- A raw progress message with unchanged status and no new log entries (the
server reports "nothing has changed"). -/
def emptyRaw : RawBatch := ⟨"In progress", [], none⟩

/-- The parsed form of `emptyRaw`. -/
def emptyParsed : ParsedBatch := ⟨SubmissionStatus.IN_PROGRESS, [], none⟩

/-- A connection attempt delivering one empty, status-unchanged message and
then failing. -/
def yieldFailA : ConnAttempt := ⟨[emptyRaw], ConnEnd.failed⟩

/-- A raw progress message carrying log entries 1 and 2. -/
def twoEntryRaw : RawBatch :=
  ⟨"In progress",
   [⟨1, "2022-05-04T16:08:16+00:00", "Info", "Message 1"⟩,
    ⟨2, "2022-05-04T16:08:18+00:00", "Warning", "Message 2"⟩], none⟩

/-- The parsed form of `twoEntryRaw`. -/
def twoEntryParsed : ParsedBatch :=
  ⟨SubmissionStatus.IN_PROGRESS,
   [⟨1, "2022-05-04T16:08:16+00:00", SubmissionLogMessageType.INFO, "Message 1"⟩,
    ⟨2, "2022-05-04T16:08:18+00:00", SubmissionLogMessageType.WARNING, "Message 2"⟩],
   none⟩

/-- A raw progress message whose first (and only) log entry has entry number
100 — far beyond the cursor value 1 that a fresh run requests. -/
def gapRaw : RawBatch :=
  ⟨"In progress", [⟨100, "2022-05-04T16:08:16+00:00", "Info", "A gap"⟩], none⟩

/-- The parsed form of `gapRaw`. -/
def gapParsed : ParsedBatch :=
  ⟨SubmissionStatus.IN_PROGRESS,
   [⟨100, "2022-05-04T16:08:16+00:00", SubmissionLogMessageType.INFO, "A gap"⟩], none⟩

/-- A raw progress message with the terminal status `Successful` and no new
log entries. -/
def succRaw : RawBatch := ⟨"Successful", [], some "2022-1-SCI-042"⟩

/-- The parsed form of `succRaw`. -/
def succParsed : ParsedBatch := ⟨SubmissionStatus.SUCCESSFUL, [], some "2022-1-SCI-042"⟩

/-- A raw progress message with one log entry and unchanged status. -/
def oneEntryRaw : RawBatch :=
  ⟨"In progress", [⟨1, "2022-05-04T16:08:16+00:00", "Info", "Message 1"⟩], none⟩

/-- The parsed form of `oneEntryRaw`. -/
def oneEntryParsed : ParsedBatch :=
  ⟨SubmissionStatus.IN_PROGRESS,
   [⟨1, "2022-05-04T16:08:16+00:00", SubmissionLogMessageType.INFO, "Message 1"⟩], none⟩

/-- Result of processing the messages of one connection under the spec's
reset discipline (claim C3): alongside the yield events, entry count and
parse flag, the retry counter and the status of the last yielded batch are
tracked, because under that discipline only a non-empty or status-changing
batch resets the counter. -/
structure ClaimStep where
  events : List Event
  entries : Nat
  ok : Bool
  retries : Nat
  lastStatus : Option SubmissionStatus
deriving DecidableEq, Repr

/-- Modelled from the spec's words, for comparison with the source-derived
`processMessages`: per-message processing in which the consecutive-failure
counter is reset to zero exactly when the yielded batch is non-empty or
status-changing (spec §4.3: "The consecutive-failure counter is reset to
zero ... whenever a fetch succeeds and yields a non-empty or status-changing
batch"). -/
def processMessagesClaim : List RawBatch → Option SubmissionStatus → Nat → ClaimStep
  | [], ls, r => ⟨[], 0, true, r, ls⟩
  | m :: ms, ls, r =>
    match parseBatch m with
    | none => ⟨[], 0, false, r, ls⟩
    | some b =>
      let r' := if b.log_entries ≠ [] ∨ some b.status ≠ ls then 0 else r
      let rest := processMessagesClaim ms (some b.status) r'
      ⟨Event.yielded b :: rest.events, b.log_entries.length + rest.entries,
       rest.ok, rest.retries, rest.lastStatus⟩

/-- Modelled from the spec's words, for comparison with the source-derived
`submission_progress`: the same reconnection loop, but with the
consecutive-failure counter reset exactly when a non-empty or
status-changing batch is yielded, as claim C3 states. -/
def submission_progressClaim (max_retries : Nat) :
    List ConnAttempt → Nat → Nat → Option SubmissionStatus → List Event
  | [], _, _, _ => []
  | a :: rest, received, r, ls =>
    let st := processMessagesClaim a.messages ls r
    if st.ok = true ∧ a.ending = ConnEnd.closedOK then
      Event.request (received + 1) :: st.events ++ [Event.completed]
    else if st.retries + 1 > max_retries then
      Event.request (received + 1) :: st.events ++ [Event.raised]
    else
      Event.request (received + 1) :: st.events ++
        submission_progressClaim max_retries rest (received + st.entries)
          (st.retries + 1) st.lastStatus

/-- The attempt sequence refuting claim C3: a non-empty batch is yielded
(resetting the counter under both disciplines), then an empty,
status-unchanged batch is yielded before a second failure, then the server
closes the connection. -/
def c3Attempts : List ConnAttempt :=
  [⟨[oneEntryRaw], ConnEnd.failed⟩, ⟨[emptyRaw], ConnEnd.failed⟩, closeA]

/-! ## web.py: `check_for_http_errors` -/

/-- The JSON object of an HTTP response body, restricted to the two fields
the error-checking code inspects. -/
structure ResponseJson where
  message : Option String
  error : Option String
deriving DecidableEq, Repr

/-- An HTTP response as the error-checking code observes it: the status code
and the result of `response.json()` (`none` when that call raises). -/
structure HttpResponse where
  status_code : Nat
  json : Option ResponseJson
deriving DecidableEq, Repr

/-- `DEFAULT_STATUS_CODE_ERRORS` in web.py (a dict lookup). -/
def DEFAULT_STATUS_CODE_ERRORS (status_code : Nat) : Option String :=
  if status_code = 400 then
    some "It seems there was a problem with your input."
  else if status_code = 401 then
    some "You are not authenticated. Please use pyastrosalt.web.login to authenticate."
  else if status_code = 403 then
    some "You are not allowed to perform this action."
  else if status_code = 404 then
    some "The required API endpoint could not be found. Please contact SALT."
  else if status_code = 500 then
    some "An internal server error has occurred. Please contact SALT."
  else none

/-- `DEFAULT_STATUS_CODE_ERRORS.get(status_code, f"The request failed with a
status code {status_code}.")` in web.py. -/
def web_default_message (status_code : Nat) : String :=
  match DEFAULT_STATUS_CODE_ERRORS status_code with
  | some d => d
  | none => "The request failed with a status code " ++ toString status_code ++ "."

/-- `HttpStatusError` in web.py: status code and message. -/
structure HttpStatusError where
  status_code : Nat
  message : String
deriving DecidableEq, Repr

/-- `check_for_http_errors` in web.py: return normally for status codes
below 400; otherwise raise an `HttpStatusError` whose message comes from the
body's `message` field, else its `error` field, else the per-status default. -/
def check_for_http_errors (response : HttpResponse) : Except HttpStatusError Unit :=
  if response.status_code < 400 then Except.ok ()
  else
    let fromBody : Option String :=
      match response.json with
      | some j =>
        match j.message with
        | some m => some m
        | none => j.error
      | none => none
    let message : String :=
      match fromBody with
      | some m => m
      | none => web_default_message response.status_code
    Except.error ⟨response.status_code, message⟩

/-! ## requests.py: `Session._handle_errors` and `Session.request` -/

/-- The typed error classes of exceptions.py, by status code. -/
inductive APIErrorKind
  | badRequest
  | notAuthenticated
  | forbidden
  | notFound
  | serverError
  | generic
deriving DecidableEq, Repr

/-- An `APIError` (exceptions.py): the concrete subclass raised, the message,
and the status code of the response it carries. -/
structure APIError where
  kind : APIErrorKind
  message : String
  status_code : Nat
deriving DecidableEq, Repr

/-- `Session._handle_errors` in requests.py: return for status codes below
400; otherwise raise the per-status typed error, with the message taken from
the body's `message` field and the fixed string "API request error."
otherwise. -/
def Session.handle_errors (response : HttpResponse) : Except APIError Unit :=
  if response.status_code < 400 then Except.ok ()
  else
    let message : String :=
      match response.json with
      | some j =>
        match j.message with
        | some m => m
        | none => "API request error."
      | none => "API request error."
    if response.status_code = 400 then
      Except.error ⟨APIErrorKind.badRequest, message, response.status_code⟩
    else if response.status_code = 401 then
      Except.error ⟨APIErrorKind.notAuthenticated, message, response.status_code⟩
    else if response.status_code = 403 then
      Except.error ⟨APIErrorKind.forbidden, message, response.status_code⟩
    else if response.status_code = 404 then
      Except.error ⟨APIErrorKind.notFound, message, response.status_code⟩
    else if response.status_code = 500 then
      Except.error ⟨APIErrorKind.serverError, message, response.status_code⟩
    else
      Except.error ⟨APIErrorKind.generic, message, response.status_code⟩

/-- The errors `Session.request` can raise: the `ValueError` of the endpoint
checks, or the typed API error of `_handle_errors`. -/
inductive RequestError
  | valueError (message : String)
  | api (e : APIError)
deriving DecidableEq, Repr

/-- Python's `str.startswith`, modelled over the string's character list so
that it evaluates by kernel reduction. -/
def strStartsWith (s p : String) : Bool := p.data.isPrefixOf s.data

/-- The `ValueError` message for an endpoint that is a full URL. -/
def ENDPOINT_URL_MESSAGE : String :=
  "The endpoint must be the path relative to the base URL, not the URL itself. An example would be \"/status\"."

/-- The `ValueError` message for an endpoint that does not start with a
single slash. -/
def ENDPOINT_SLASH_MESSAGE : String :=
  "The endpoint must start with a single slash. An example would be \"/status\"."

/-- `Session.request` in requests.py, over an abstract transport mapping a
full URL to the server's response.  The first component records the URLs
actually passed to the underlying requests session (the network side
effects); the second is the outcome. -/
def Session.request (base_url endpoint : String) (transport : String → HttpResponse) :
    List String × Except RequestError HttpResponse :=
  if strStartsWith endpoint "http://" || strStartsWith endpoint "https://" then
    ([], Except.error (RequestError.valueError ENDPOINT_URL_MESSAGE))
  else if !strStartsWith endpoint "/" || strStartsWith endpoint "//" then
    ([], Except.error (RequestError.valueError ENDPOINT_SLASH_MESSAGE))
  else
    let url := base_url ++ endpoint
    let response := transport url
    ([url],
      match Session.handle_errors response with
      | Except.ok _ => Except.ok response
      | Except.error e => Except.error (RequestError.api e))

/-! ## submission.py: `submit` / `_submit` / `_check_submitted_content` -/

/-- The submitted file as `_check_submitted_content` observes it: either not
a zip file at all, or a zip file with its list of member names and the
`code` attribute of the root element of its `Proposal.xml` (meaningful only
when `Proposal.xml` is a member; `none` models an absent attribute). -/
inductive SubmittedFile
  | notZip
  | zip (filenames : List String) (proposalXmlCode : Option String)
deriving DecidableEq, Repr

/-- The recognised top-level manifest file names. -/
def manifestNames : List String := ["Proposal.xml", "Blocks.xml", "Block.xml"]

/-- Python string formatting of an optional string: `None` renders as
"None". -/
def pyOptionStr : Option String → String
  | none => "None"
  | some s => s

/-- `_check_submitted_content` in submission.py: the file must be a zip,
contain exactly one manifest file, a block submission needs a proposal code,
and a non-empty `code` attribute in `Proposal.xml` must match the
`proposal_code` argument. -/
def check_submitted_content (file : SubmittedFile) (proposal_code : Option String) :
    Except String Unit :=
  match file with
  | SubmittedFile.notZip => Except.error "The submitted file must be a zip file."
  | SubmittedFile.zip filenames code =>
    let required_filenames := filenames.filter (fun f => decide (f ∈ manifestNames))
    if required_filenames.length = 0 then
      Except.error
        "The submitted zip file must contain a file Proposal.xml, Blocks.xml or Block.xml."
    else if required_filenames.length > 1 then
      Except.error
        "The submitted zip file must contain exactly one of Proposal.xml, Blocks.xml or Block.xml."
    else if ("Blocks.xml" ∈ required_filenames ∨ "Block.xml" ∈ required_filenames)
        ∧ proposal_code = none then
      Except.error "A proposal code is required for a block submission."
    else
      match required_filenames.head? with
      | some "Proposal.xml" =>
        match code with
        | some c =>
          if c ≠ "" ∧ proposal_code ≠ some c then
            Except.error ("The proposal code argument (" ++ pyOptionStr proposal_code
              ++ ") does not match the proposal code in the submitted Proposal.xml file ("
              ++ c ++ ").")
          else Except.ok ()
        | none => Except.ok ()
      | _ => Except.ok ()

/-- A network side effect of the submission path. -/
inductive NetworkAction
  | post (endpoint : String)
deriving DecidableEq, Repr

/-- `_submit` in submission.py: run the sanity checks, and only if they pass
issue the upload request to `/submissions/`.  The success value lists the
network actions performed; a validation error performs none. -/
def submit_file (file : SubmittedFile) (proposal_code : Option String) :
    Except String (List NetworkAction) :=
  match check_submitted_content file proposal_code with
  | Except.error e => Except.error e
  | Except.ok _ => Except.ok [NetworkAction.post "/submissions/"]

/-! ## The Submission state machine (spec §4.4)

`class Submission` in src/pyastrosalt/submission.py is declared but carries
no implementation (`pass`); its behaviour — the cached, lazily refreshed
view with status/log/error/proposal_code properties — exists in the
repository only through its tests and the specification.  The definitions
below are therefore modelled from the spec. -/

/-- A log entry of the Submission state machine (spec §3, Log Entry Model).
The timestamp is kept as its raw string. -/
structure SubmissionLogEntry where
  logged_at : String
  message_type : SubmissionLogMessageType
  message : String
deriving DecidableEq, Repr

/-- Modelled from the spec: a ProgressBatch (§3) — status, ordered
(entry_number, entry) pairs, and the optional proposal code. -/
structure ProgressBatch where
  status : SubmissionStatus
  entries : List (Nat × SubmissionLogEntry)
  proposal_code : Option String
deriving DecidableEq, Repr

/-- Modelled from the spec: the SubmissionState aggregate (§3) owned by one
Submission instance.  Timestamps are natural numbers (seconds). -/
structure SubmissionState where
  status : SubmissionStatus
  log : List SubmissionLogEntry
  next_expected_entry_number : Nat
  last_refreshed_at : Option Nat
  proposal_code : Option String
deriving DecidableEq, Repr

/-- Terminal statuses (spec §3): `Failed` and `Successful`. -/
def SubmissionStatus.isTerminal : SubmissionStatus → Bool
  | SubmissionStatus.FAILED => true
  | SubmissionStatus.SUCCESSFUL => true
  | SubmissionStatus.IN_PROGRESS => false

/-- Modelled from the spec: merging a batch into the state (§3 invariants,
§4.4 step 3) — entries must start at `next_expected_entry_number` and be
contiguous, the log is append-only, and `proposal_code` is set iff the
merged status is `Successful`. -/
def mergeBatch (s : SubmissionState) (b : ProgressBatch) :
    Except Unit SubmissionState :=
  if b.entries.map Prod.fst = List.range' s.next_expected_entry_number b.entries.length then
    Except.ok
      { status := b.status,
        log := s.log ++ b.entries.map Prod.snd,
        next_expected_entry_number := s.next_expected_entry_number + b.entries.length,
        last_refreshed_at := s.last_refreshed_at,
        proposal_code := if b.status = SubmissionStatus.SUCCESSFUL then b.proposal_code else none }
  else Except.error ()

/-- Modelled from the spec: the shared refresh path of every property read
(§4.4 steps 1–3).  `fetch` abstracts the Reconnection Controller; the `Nat`
in the result counts the network refreshes performed (0 or 1). -/
def maybeRefresh (polling_interval now : Nat)
    (fetch : Nat → Except Unit ProgressBatch) (s : SubmissionState) :
    Except Unit (SubmissionState × Nat) :=
  if (match s.last_refreshed_at with
      | some t => decide (now - t < polling_interval)
      | none => false) = true then
    Except.ok (s, 0)
  else if s.status.isTerminal then
    Except.ok (s, 0)
  else
    match fetch s.next_expected_entry_number with
    | Except.error e => Except.error e
    | Except.ok b =>
      match mergeBatch s b with
      | Except.error e => Except.error e
      | Except.ok s' => Except.ok ({ s' with last_refreshed_at := some now }, 1)

/-- Modelled from the spec: the `error` property (§4.4) — the message of the
last Error-typed log entry, defined only when the status is `Failed`. -/
def SubmissionState.errorMessage (s : SubmissionState) : Option String :=
  if s.status = SubmissionStatus.FAILED then
    ((s.log.filter
        (fun e => decide (e.message_type = SubmissionLogMessageType.ERROR))).getLast?).map
      SubmissionLogEntry.message
  else none

/-- A terminal cached state used as a concrete witness input. -/
def terminalState : SubmissionState :=
  { status := SubmissionStatus.SUCCESSFUL,
    log := [⟨"2022-05-04T16:08:16+00:00", SubmissionLogMessageType.INFO, "Message 1"⟩],
    next_expected_entry_number := 2,
    last_refreshed_at := some 0,
    proposal_code := some "2022-1-SCI-042" }

/-- A transport returning a fixed successful response, used as a concrete
witness input. -/
def okTransport : String → HttpResponse := fun _ => ⟨200, none⟩

/-! ## Helper lemmas about the progress-run model -/

theorem entriesIn_append (l₁ l₂ : List Event) :
    entriesIn (l₁ ++ l₂) = entriesIn l₁ + entriesIn l₂ := by
  induction l₁ with
  | nil => simp [entriesIn]
  | cons e tr ih =>
    cases e
    all_goals simp [entriesIn, ih]
    all_goals omega

theorem entriesIn_of_hasYield_eq_false (l : List Event) (h : hasYield l = false) :
    entriesIn l = 0 := by
  induction l with
  | nil => rfl
  | cons e tr ih =>
    cases e <;> simp [hasYield] at h <;> simp [entriesIn, ih h]

theorem processMessages_entries (ms : List RawBatch) :
    entriesIn (processMessages ms).1 = (processMessages ms).2.1 := by
  induction ms with
  | nil => rfl
  | cons m ms ih =>
    simp only [processMessages]
    cases parseBatch m with
    | none => rfl
    | some b => simp [entriesIn, ih]

theorem processMessages_yielded (ms : List RawBatch) (e : Event)
    (h : e ∈ (processMessages ms).1) : ∃ b, e = Event.yielded b := by
  induction ms with
  | nil => simp [processMessages] at h
  | cons m ms ih =>
    simp only [processMessages] at h
    cases hp : parseBatch m with
    | none => rw [hp] at h; simp at h
    | some b =>
      rw [hp] at h
      simp at h
      rcases h with h | h
      · exact ⟨b, h⟩
      · exact ih h

theorem processMessages_length (ms : List RawBatch)
    (h : (processMessages ms).2.2 = true) :
    (processMessages ms).1.length = ms.length := by
  induction ms with
  | nil => rfl
  | cons m ms ih =>
    cases hp : parseBatch m with
    | none => simp [processMessages, hp] at h
    | some b =>
      simp only [processMessages, hp] at h ⊢
      simp at h ⊢
      exact ih h

theorem yielded_append_split (ys tail pre post : List Event) (f : Nat)
    (hys : ∀ e ∈ ys, ∃ b, e = Event.yielded b)
    (h : ys ++ tail = pre ++ Event.request f :: post) :
    ∃ mid, pre = ys ++ mid ∧ tail = mid ++ Event.request f :: post := by
  induction ys generalizing pre with
  | nil => exact ⟨pre, rfl, h⟩
  | cons y ys ih =>
    cases pre with
    | nil =>
      simp at h
      obtain ⟨b, hb⟩ := hys y (by simp)
      rw [hb] at h
      exact absurd h.1 (by simp)
    | cons e pre' =>
      simp only [List.cons_append, List.cons.injEq] at h
      obtain ⟨he, h'⟩ := h
      obtain ⟨mid, h1, h2⟩ := ih pre' (fun x hx => hys x (List.mem_cons_of_mem y hx)) h'
      refine ⟨mid, ?_, h2⟩
      rw [List.cons_append, ← he, h1]

theorem submission_progress_fail_step (max received r : Nat) (rest : List ConnAttempt)
    (h : r + 1 ≤ max) :
    submission_progress max (failA :: rest) received r
      = Event.request (received + 1) :: submission_progress max rest received (r + 1) := by
  simp only [submission_progress, failA, processMessages]
  simp [Nat.not_lt_of_le h]

theorem submission_progress_fail_raise (max received r : Nat) (rest : List ConnAttempt)
    (h : max ≤ r) :
    submission_progress max (failA :: rest) received r
      = [Event.request (received + 1), Event.raised] := by
  simp only [submission_progress, failA, processMessages]
  simp [Nat.lt_succ_of_le h]

theorem submission_progress_success_step (max received r : Nat) (a : ConnAttempt)
    (rest : List ConnAttempt)
    (hok : (processMessages a.messages).2.2 = true) (hend : a.ending = ConnEnd.closedOK) :
    submission_progress max (a :: rest) received r
      = Event.request (received + 1) :: (processMessages a.messages).1 ++ [Event.completed] := by
  simp only [submission_progress]
  simp [hok, hend]

theorem submission_progress_replicate_fail (max k received r : Nat)
    (rest : List ConnAttempt) (h : r + k ≤ max) :
    submission_progress max (List.replicate k failA ++ rest) received r
      = List.replicate k (Event.request (received + 1)) ++
        submission_progress max rest received (r + k) := by
  induction k generalizing r with
  | zero => simp
  | succ k ih =>
    rw [List.replicate_succ, List.cons_append,
      submission_progress_fail_step max received r _ (by omega),
      ih (r + 1) (by omega), List.replicate_succ]
    simp [Nat.add_assoc, Nat.add_comm 1 k]


theorem run_split_head (x : Nat) (ys tail pre post : List Event) (f : Nat)
    (hys : ∀ e ∈ ys, ∃ b, e = Event.yielded b)
    (h : Event.request x :: (ys ++ tail) = pre ++ Event.request f :: post) :
    (pre = [] ∧ f = x) ∨
      ∃ mid, pre = Event.request x :: (ys ++ mid) ∧
        tail = mid ++ Event.request f :: post := by
  cases pre with
  | nil =>
    simp at h
    exact Or.inl ⟨rfl, h.1.symm⟩
  | cons e pre' =>
    simp only [List.cons_append, List.cons.injEq] at h
    obtain ⟨he, h'⟩ := h
    obtain ⟨mid, h1, h2⟩ := yielded_append_split ys tail pre' post f hys h'
    refine Or.inr ⟨mid, ?_, h2⟩
    rw [← he, h1]

theorem terminal_singleton_no_request (e : Event) (mid post : List Event) (f : Nat)
    (he : e = Event.completed ∨ e = Event.raised)
    (h : [e] = mid ++ Event.request f :: post) : False := by
  have hmem : Event.request f ∈ [e] :=
    h ▸ List.mem_append_right mid (List.mem_cons_self _ _)
  rcases he with rfl | rfl <;> simp at hmem

theorem submission_progress_request_invariant (max : Nat) (attempts : List ConnAttempt) :
    ∀ received r pre f post,
      submission_progress max attempts received r = pre ++ Event.request f :: post →
      f = received + 1 + entriesIn pre := by
  induction attempts with
  | nil =>
    intro received r pre f post h
    exact absurd h.symm (by simp [submission_progress])
  | cons a rest ih =>
    intro received r pre f post h
    simp only [submission_progress, List.cons_append] at h
    split at h
    · rcases run_split_head (received + 1) (processMessages a.messages).1 [Event.completed]
        pre post f (processMessages_yielded a.messages) h with hl | ⟨mid, h1, h2⟩
      · simp [hl.1, hl.2, entriesIn]
      · exact absurd h2 (fun hh =>
          terminal_singleton_no_request Event.completed mid post f (Or.inl rfl) hh)
    · split at h
      · split at h
        · rcases run_split_head (received + 1) (processMessages a.messages).1 [Event.raised]
            pre post f (processMessages_yielded a.messages) h with hl | ⟨mid, h1, h2⟩
          · simp [hl.1, hl.2, entriesIn]
          · exact absurd h2 (fun hh =>
              terminal_singleton_no_request Event.raised mid post f (Or.inr rfl) hh)
        · rcases run_split_head (received + 1) (processMessages a.messages).1 _
            pre post f (processMessages_yielded a.messages) h with hl | ⟨mid, h1, h2⟩
          · simp [hl.1, hl.2, entriesIn]
          · have hf := ih (received + (processMessages a.messages).2.1) (r + 1) mid f post h2
            rw [h1]
            simp [entriesIn, entriesIn_append, processMessages_entries]
            omega
      · split at h
        · rcases run_split_head (received + 1) (processMessages a.messages).1 [Event.raised]
            pre post f (processMessages_yielded a.messages) h with hl | ⟨mid, h1, h2⟩
          · simp [hl.1, hl.2, entriesIn]
          · exact absurd h2 (fun hh =>
              terminal_singleton_no_request Event.raised mid post f (Or.inr rfl) hh)
        · rcases run_split_head (received + 1) (processMessages a.messages).1 _
            pre post f (processMessages_yielded a.messages) h with hl | ⟨mid, h1, h2⟩
          · simp [hl.1, hl.2, entriesIn]
          · have hf := ih (received + (processMessages a.messages).2.1) (0 + 1) mid f post h2
            rw [h1]
            simp [entriesIn, entriesIn_append, processMessages_entries]
            omega

theorem submission_progress_run_getLast (l ys : List Event) (x e : Event) :
    (l ++ (x :: ys ++ [e])).getLast? = some e := by
  rw [show l ++ (x :: ys ++ [e]) = (l ++ x :: ys) ++ [e] by simp]
  exact List.getLast?_concat _

theorem submission_progress_yieldfail_step (max received r : Nat) (b : RawBatch)
    (pb : ParsedBatch) (rest : List ConnAttempt)
    (hb : parseBatch b = some pb) (h : 1 ≤ max) :
    submission_progress max (⟨[b], ConnEnd.failed⟩ :: rest) received r
      = Event.request (received + 1) :: Event.yielded pb ::
          submission_progress max rest (received + pb.log_entries.length) 1 := by
  simp only [submission_progress, processMessages, hb]
  simp [Nat.not_lt_of_le h]

/-- Claim C1, as stated, is false of the code: with `max_retries = 0`, a run
whose fetch source fails once (the initial attempt plus zero retries) and
would then succeed raises the failure instead of retrying — the last
connection attempt is never even made. -/
theorem submission_progress_bounded_retries_cex :
    submission_progress 0 [failA, closeA] 0 0 = [Event.request 1, Event.raised] := rfl

/-- Claim C1 (amended): given `max_retries = N`, a run in which the fetch
source fails N consecutive times (initial attempt plus N-1 retries) and then
succeeds does not raise, while a run with N+1 consecutive failures raises
the last failure to the caller. -/
theorem submission_progress_bounded_retries (N : Nat) (a : ConnAttempt)
    (rest : List ConnAttempt)
    (hok : (processMessages a.messages).2.2 = true)
    (hend : a.ending = ConnEnd.closedOK) :
    (submission_progress N (List.replicate N failA ++ [a]) 0 0).getLast?
        = some Event.completed ∧
    (submission_progress N (List.replicate (N + 1) failA ++ rest) 0 0).getLast?
        = some Event.raised := by
  constructor
  · rw [submission_progress_replicate_fail N N 0 0 [a] (by omega),
        submission_progress_success_step N 0 (0 + N) a [] hok hend]
    exact submission_progress_run_getLast _ _ _ _
  · rw [show N + 1 = N.succ from rfl, List.replicate_succ', List.append_assoc,
        List.singleton_append,
        submission_progress_replicate_fail N N 0 0 (failA :: rest) (by omega),
        submission_progress_fail_raise N 0 (0 + N) rest (by omega)]
    exact submission_progress_run_getLast _ [] _ _

/-- Witness for the amended claim C1 at N = 2. -/
theorem submission_progress_bounded_retries_witness :
    (submission_progress 2 (List.replicate 2 failA ++ [closeA]) 0 0).getLast?
        = some Event.completed ∧
    (submission_progress 2 (List.replicate (2 + 1) failA ++ []) 0 0).getLast?
        = some Event.raised :=
  submission_progress_bounded_retries 2 closeA [] rfl rfl

/-- Claim C2: in every run, each (re)connection passes
`from_entry_number = 1 +` the number of log entries already yielded, and a
reconnection separated from the previous one by no yield (nothing merged)
passes the same `from_entry_number`; hence no entry is requested twice. -/
theorem submission_progress_cursor (max_retries : Nat) (attempts : List ConnAttempt)
    (pre mid post : List Event) (f g : Nat) :
    (submission_progress max_retries attempts 0 0 = pre ++ Event.request f :: post →
      f = 1 + entriesIn pre) ∧
    (submission_progress max_retries attempts 0 0
        = pre ++ Event.request f :: (mid ++ Event.request g :: post) →
      hasYield mid = false → g = f) := by
  constructor
  · intro h
    have := submission_progress_request_invariant max_retries attempts 0 0 pre f post h
    omega
  · intro h hy
    have h1 := submission_progress_request_invariant max_retries attempts 0 0 pre f
      (mid ++ Event.request g :: post) h
    rw [show pre ++ Event.request f :: (mid ++ Event.request g :: post)
        = (pre ++ Event.request f :: mid) ++ Event.request g :: post by simp] at h
    have h2 := submission_progress_request_invariant max_retries attempts 0 0
      (pre ++ Event.request f :: mid) g post h
    rw [entriesIn_append] at h2
    have h3 : entriesIn mid = 0 := entriesIn_of_hasYield_eq_false mid hy
    have h4 : entriesIn (Event.request f :: mid) = entriesIn mid := rfl
    omega

/-- Witness for claim C2 on a concrete run with one reconnection after a
merge and one retry with nothing merged. -/
theorem submission_progress_cursor_witness :
    (3 : Nat) = 1 + entriesIn [Event.request 1, Event.yielded twoEntryParsed] :=
  (submission_progress_cursor 5 [⟨[twoEntryRaw], ConnEnd.failed⟩, failA, closeA]
      [Event.request 1, Event.yielded twoEntryParsed] [] [Event.completed] 3 3).2
    rfl rfl

/-- Claim C3, as stated, is false of the code: the retry counter is reset by
every received message, not only by non-empty or status-changing batches.
On `c3Attempts` with `max_retries = 1` the code completes, while a run
driven by the spec's reset discipline (`submission_progressClaim`) exhausts
its budget on the second failure and raises. -/
theorem submission_progress_reset_cex :
    (submission_progress 1 c3Attempts 0 0).getLast? = some Event.completed ∧
    (submission_progressClaim 1 c3Attempts 0 0 none).getLast? = some Event.raised :=
  ⟨rfl, rfl⟩

/-- Claim C3 (amended): the consecutive-failure counter is reset to zero
whenever a fetch succeeds and yields any batch — including an empty batch
with unchanged status — and after such a reset a subsequent run of
consecutive failures is again bounded by the full `max_retries`: here, after
an attempt that yields one empty batch and then fails (counter 1), k further
failures with 1 + k ≤ max_retries leave the run alive, whatever the counter
r was before the attempt. -/
theorem submission_progress_reset (max_retries received r k : Nat)
    (rest : List ConnAttempt) (h : 1 + k ≤ max_retries) :
    submission_progress max_retries (yieldFailA :: (List.replicate k failA ++ rest))
        received r
      = Event.request (received + 1) :: Event.yielded emptyParsed ::
          (List.replicate k (Event.request (received + 1)) ++
            submission_progress max_retries rest received (1 + k)) := by
  rw [show yieldFailA = (⟨[emptyRaw], ConnEnd.failed⟩ : ConnAttempt) from rfl,
      submission_progress_yieldfail_step max_retries received r emptyRaw emptyParsed _
        rfl (by omega)]
  simp only [show emptyParsed.log_entries.length = 0 from rfl, Nat.add_zero]
  rw [submission_progress_replicate_fail max_retries k received 1 rest (by omega)]

/-- Witness for the amended claim C3: max_retries = 2, one empty-batch yield
with incoming counter 7, then one more failure, then completion. -/
theorem submission_progress_reset_witness :
    submission_progress 2 (yieldFailA :: (List.replicate 1 failA ++ [closeA])) 0 7
      = Event.request 1 :: Event.yielded emptyParsed ::
          (List.replicate 1 (Event.request 1) ++ submission_progress 2 [closeA] 0 2) :=
  submission_progress_reset 2 0 7 1 [closeA] (by omega)

/-- Claim C4, as stated, is false of the code: a batch whose first entry
number (100) does not equal the expected cursor (1) is merged and yielded
with no failure — the run completes normally. -/
theorem submission_progress_gap_cex :
    submission_progress 5 [⟨[gapRaw], ConnEnd.closedOK⟩] 0 0
      = [Event.request 1, Event.yielded gapParsed, Event.completed] := rfl

/-- Claim C4 (amended): `submission_progress` performs no entry-number
validation at all: any batch that parses is merged and yielded unchanged,
regardless of how its entry numbers relate to the cursor, and triggers no
failure/retry path. -/
theorem submission_progress_no_sequence_check (max_retries received r : Nat)
    (b : RawBatch) (pb : ParsedBatch) (hb : parseBatch b = some pb) :
    submission_progress max_retries [⟨[b], ConnEnd.closedOK⟩] received r
      = [Event.request (received + 1), Event.yielded pb, Event.completed] := by
  rw [submission_progress_success_step max_retries received r _ []
    (by simp [processMessages, hb]) rfl]
  simp [processMessages, hb]

/-- Witness for the amended claim C4: the gap batch (first entry number 100)
is yielded although the cursor is at 4. -/
theorem submission_progress_no_sequence_check_witness :
    submission_progress 5 [⟨[gapRaw], ConnEnd.closedOK⟩] 3 2
      = [Event.request 4, Event.yielded gapParsed, Event.completed] :=
  submission_progress_no_sequence_check 5 3 2 gapRaw gapParsed rfl

/-- Claim C6, as stated, is false of the code: the generator does not stop
on a terminal status — after yielding a `Successful` batch it yields the
next received message as well, and terminates only on connection close. -/
theorem submission_progress_terminal_cex :
    submission_progress 5 [⟨[succRaw, emptyRaw], ConnEnd.closedOK⟩] 0 0
      = [Event.request 1, Event.yielded succParsed, Event.yielded emptyParsed,
         Event.completed] := rfl

/-- Claim C6 (amended): the streaming generator yields one item per
successfully parsed received message and terminates when the server closes
the connection; a terminal status does not by itself stop the stream. -/
theorem submission_progress_stream_termination (max_retries received r : Nat)
    (msgs : List RawBatch) (hok : (processMessages msgs).2.2 = true) :
    submission_progress max_retries [⟨msgs, ConnEnd.closedOK⟩] received r
      = Event.request (received + 1) :: (processMessages msgs).1 ++ [Event.completed]
    ∧ (processMessages msgs).1.length = msgs.length :=
  ⟨submission_progress_success_step max_retries received r _ [] hok rfl,
   processMessages_length msgs hok⟩

/-- Witness for the amended claim C6 on a connection that delivers a
terminal-status batch followed by another message. -/
theorem submission_progress_stream_termination_witness :
    submission_progress 5 [⟨[succRaw, emptyRaw], ConnEnd.closedOK⟩] 1 0
      = Event.request 2 :: (processMessages [succRaw, emptyRaw]).1 ++ [Event.completed]
    ∧ (processMessages [succRaw, emptyRaw]).1.length = 2 :=
  submission_progress_stream_termination 5 1 0 [succRaw, emptyRaw] rfl

/-- Claim C5 (spec-modelled): once the cached status of a Submission is
terminal (`Failed` or `Successful`), every property access returns the
cached state unchanged and performs zero network calls, whatever the current
time and however long ago the last refresh happened. -/
theorem submission_terminal_freeze (polling_interval now : Nat)
    (fetch : Nat → Except Unit ProgressBatch) (s : SubmissionState)
    (h : s.status.isTerminal = true) :
    maybeRefresh polling_interval now fetch s = Except.ok (s, 0) := by
  simp [maybeRefresh, h]

/-- Witness for claim C5: a successful cached state, a clock far past the
polling interval, and a fetch that would fail if it were ever called. -/
theorem submission_terminal_freeze_witness :
    maybeRefresh 10 1000000 (fun _ => Except.error ()) terminalState
      = Except.ok (terminalState, 0) :=
  submission_terminal_freeze 10 1000000 (fun _ => Except.error ()) terminalState rfl

theorem handle_errors_error_form (r : HttpResponse) (h : ¬ r.status_code < 400) :
    ∃ k, Session.handle_errors r = Except.error ⟨k,
      (match r.json with
       | some j => (match j.message with | some m => m | none => "API request error.")
       | none => "API request error."), r.status_code⟩ := by
  unfold Session.handle_errors
  rw [if_neg h]
  dsimp only
  repeat' split
  all_goals exact ⟨_, rfl⟩

/-- Claim C7, as stated, is false of `Session._handle_errors` (one of the two
error-checking paths it names): for a 400 response whose JSON body has only
an `error` field, the claim requires the message "boom", but
`Session._handle_errors` uses its fixed default message; only
`check_for_http_errors` resolves the `error` field. -/
theorem http_error_paths_cex :
    check_for_http_errors ⟨400, some ⟨none, some "boom"⟩⟩
        = Except.error ⟨400, "boom"⟩ ∧
    Session.handle_errors ⟨400, some ⟨none, some "boom"⟩⟩
        = Except.error ⟨APIErrorKind.badRequest, "API request error.", 400⟩ ∧
    ("API request error." : String) ≠ "boom" :=
  ⟨rfl, rfl, by decide⟩

/-- Claim C7 (amended): for status < 400 both error-checking paths return
without raising.  For status ≥ 400 both raise a typed error carrying the
status code; `check_for_http_errors` resolves the message from the `message`
field, else the `error` field, else the per-status default, exactly as the
claim states, while `Session._handle_errors` resolves it from the `message`
field only, with the fixed fallback "API request error.". -/
theorem http_error_paths (r : HttpResponse) :
    (r.status_code < 400 →
      check_for_http_errors r = Except.ok () ∧
      Session.handle_errors r = Except.ok ()) ∧
    (400 ≤ r.status_code →
      (∀ j m, r.json = some j → j.message = some m →
        check_for_http_errors r = Except.error ⟨r.status_code, m⟩ ∧
        ∃ k, Session.handle_errors r = Except.error ⟨k, m, r.status_code⟩) ∧
      (∀ j v, r.json = some j → j.message = none → j.error = some v →
        check_for_http_errors r = Except.error ⟨r.status_code, v⟩ ∧
        ∃ k, Session.handle_errors r
          = Except.error ⟨k, "API request error.", r.status_code⟩) ∧
      ((r.json = none ∨ r.json = some ⟨none, none⟩) →
        check_for_http_errors r
          = Except.error ⟨r.status_code, web_default_message r.status_code⟩ ∧
        ∃ k, Session.handle_errors r
          = Except.error ⟨k, "API request error.", r.status_code⟩)) := by
  have hlt : r.status_code < 400 ∨ ¬ r.status_code < 400 := em _
  constructor
  · intro h
    constructor
    · unfold check_for_http_errors
      rw [if_pos h]
    · unfold Session.handle_errors
      rw [if_pos h]
  · intro h
    have hnl : ¬ r.status_code < 400 := by omega
    refine ⟨?_, ?_, ?_⟩
    · intro j m hj hm
      constructor
      · unfold check_for_http_errors
        rw [if_neg hnl]
        simp [hj, hm]
      · obtain ⟨k, hk⟩ := handle_errors_error_form r hnl
        simp only [hj, hm] at hk
        exact ⟨k, hk⟩
    · intro j v hj hm he
      constructor
      · unfold check_for_http_errors
        rw [if_neg hnl]
        simp [hj, hm, he]
      · obtain ⟨k, hk⟩ := handle_errors_error_form r hnl
        simp only [hj, hm] at hk
        exact ⟨k, hk⟩
    · intro hj
      constructor
      · unfold check_for_http_errors
        rw [if_neg hnl]
        rcases hj with hj | hj <;> simp [hj]
      · obtain ⟨k, hk⟩ := handle_errors_error_form r hnl
        rcases hj with hj | hj <;> simp only [hj] at hk <;> exact ⟨k, hk⟩

/-- Witness for the amended claim C7 on a 404 response with a `message`
field. -/
theorem http_error_paths_witness :
    check_for_http_errors ⟨404, some ⟨some "gone", none⟩⟩
        = Except.error ⟨404, "gone"⟩ ∧
    ∃ k, Session.handle_errors ⟨404, some ⟨some "gone", none⟩⟩
        = Except.error ⟨k, "gone", 404⟩ :=
  ((http_error_paths ⟨404, some ⟨some "gone", none⟩⟩).2 (by decide)).1
    ⟨some "gone", none⟩ "gone" rfl rfl

/-- Claim C8: for every zip archive containing more than one of
`Proposal.xml`, `Blocks.xml` and `Block.xml`, `submit` raises the validation
error "The submitted zip file must contain exactly one of Proposal.xml,
Blocks.xml or Block.xml" (which mentions the quoted phrase), and the result
being an error means no upload request is performed. -/
theorem submit_duplicate_manifest (filenames : List String) (code : Option String)
    (proposal_code : Option String)
    (h : 1 < (filenames.filter (fun f => decide (f ∈ manifestNames))).length) :
    submit_file (SubmittedFile.zip filenames code) proposal_code
      = Except.error
        "The submitted zip file must contain exactly one of Proposal.xml, Blocks.xml or Block.xml." := by
  unfold submit_file check_submitted_content
  dsimp only
  rw [if_neg (by omega), if_pos h]

/-- Witness for claim C8 on a zip containing both `Proposal.xml` and
`Blocks.xml`. -/
theorem submit_duplicate_manifest_witness :
    submit_file (SubmittedFile.zip ["Proposal.xml", "Blocks.xml"] none) none
      = Except.error
        "The submitted zip file must contain exactly one of Proposal.xml, Blocks.xml or Block.xml." :=
  submit_duplicate_manifest ["Proposal.xml", "Blocks.xml"] none none (by decide)

/-- Claim C9: when the zip's only manifest file is `Proposal.xml` and its
`code` attribute is absent or empty, the consistency check is skipped and
the upload proceeds for every `proposal_code` argument (including `None`);
the mismatch error is raised exactly when the attribute is present,
non-empty and differs from the argument. -/
theorem submit_code_consistency (filenames : List String) (code : Option String)
    (proposal_code : Option String)
    (hreq : filenames.filter (fun f => decide (f ∈ manifestNames)) = ["Proposal.xml"]) :
    ((code = none ∨ code = some "") →
      submit_file (SubmittedFile.zip filenames code) proposal_code
        = Except.ok [NetworkAction.post "/submissions/"]) ∧
    (∀ c, code = some c → c ≠ "" → proposal_code ≠ some c →
      submit_file (SubmittedFile.zip filenames code) proposal_code
        = Except.error ("The proposal code argument (" ++ pyOptionStr proposal_code
            ++ ") does not match the proposal code in the submitted Proposal.xml file ("
            ++ c ++ ").")) ∧
    (∀ c, code = some c → proposal_code = some c →
      submit_file (SubmittedFile.zip filenames code) proposal_code
        = Except.ok [NetworkAction.post "/submissions/"]) := by
  refine ⟨?_, ?_, ?_⟩
  · rintro (rfl | rfl) <;> simp [submit_file, check_submitted_content, hreq]
  · rintro c rfl hc hp
    simp [submit_file, check_submitted_content, hreq, hc, hp]
  · rintro c rfl rfl
    simp [submit_file, check_submitted_content, hreq]

/-- Witness for claim C9: an absent `code` attribute with a `proposal_code`
argument present. -/
theorem submit_code_consistency_witness :
    submit_file (SubmittedFile.zip ["Proposal.xml", "data.bin"] none) (some "2024-2-SCI-042")
      = Except.ok [NetworkAction.post "/submissions/"] :=
  (submit_code_consistency ["Proposal.xml", "data.bin"] none (some "2024-2-SCI-042")
      (by decide)).1 (Or.inl rfl)

/-- Claim C10: `Session.request` raises `ValueError` before issuing any HTTP
request for every endpoint that starts with "http://" or "https://", does
not start with "/", or starts with "//"; for every other endpoint the
checks pass and the request proceeds to the transport with the concatenated
URL. -/
theorem session_request_endpoint_validation (base_url endpoint : String)
    (transport : String → HttpResponse) :
    ((strStartsWith endpoint "http://" = true ∨ strStartsWith endpoint "https://" = true ∨
        strStartsWith endpoint "/" = false ∨ strStartsWith endpoint "//" = true) →
      (Session.request base_url endpoint transport).1 = [] ∧
      ∃ msg, (Session.request base_url endpoint transport).2
        = Except.error (RequestError.valueError msg)) ∧
    ((strStartsWith endpoint "http://" = false ∧ strStartsWith endpoint "https://" = false ∧
        strStartsWith endpoint "/" = true ∧ strStartsWith endpoint "//" = false) →
      (Session.request base_url endpoint transport).1 = [base_url ++ endpoint] ∧
      ∀ msg, (Session.request base_url endpoint transport).2
        ≠ Except.error (RequestError.valueError msg)) := by
  constructor
  · intro hbad
    by_cases h1 : (strStartsWith endpoint "http://" || strStartsWith endpoint "https://") = true
    · constructor
      · simp [Session.request, h1]
      · exact ⟨ENDPOINT_URL_MESSAGE, by simp [Session.request, h1]⟩
    · have h2 : (!strStartsWith endpoint "/" || strStartsWith endpoint "//") = true := by
        simp only [Bool.or_eq_true] at h1
        push_neg at h1
        rcases hbad with hb | hb | hb | hb
        · exact absurd hb h1.1
        · exact absurd hb h1.2
        · simp [hb]
        · simp [hb]
      constructor
      · simp [Session.request, h1, h2]
      · exact ⟨ENDPOINT_SLASH_MESSAGE, by simp [Session.request, h1, h2]⟩
  · intro hgood
    obtain ⟨g1, g2, g3, g4⟩ := hgood
    have h1 : (strStartsWith endpoint "http://" || strStartsWith endpoint "https://") = false := by
      simp [g1, g2]
    have h2 : (!strStartsWith endpoint "/" || strStartsWith endpoint "//") = false := by
      simp [g3, g4]
    constructor
    · simp [Session.request, h1, h2]
    · intro msg
      simp only [Session.request, h1, h2]
      simp
      cases Session.handle_errors (transport (base_url ++ endpoint)) with
      | ok u => simp
      | error e => simp

/-- Witness for claim C10: a valid endpoint reaches the transport with the
full URL; a full-URL endpoint is rejected with no transport call. -/
theorem session_request_endpoint_validation_witness :
    (Session.request "https://example.org" "/status" okTransport).1
        = ["https://example.org" ++ "/status"] ∧
    (Session.request "https://example.org" "http://x" okTransport).1 = [] :=
  ⟨((session_request_endpoint_validation "https://example.org" "/status" okTransport).2
      ⟨by decide, by decide, by decide, by decide⟩).1,
   ((session_request_endpoint_validation "https://example.org" "http://x" okTransport).1
      (Or.inl (by decide))).1⟩
